import Mathlib

/-!
Verification of the ESP32 tally-light control loop
(src/tally/ESP32-ArduinoIDE-WebUI.ino) against its specification.

The definitions below are a shallow embedding of the sketch:
pure C functions become Lean functions, the mutable globals touched by
`loop()` (`lastStatus`, `timeLastPackageReceived`, the strip color)
become an explicit `LoopState`, and the per-iteration external inputs
(WiFi status, received datagram, `micros()` / `millis()` readings, the
indeterminate stack values of the `sscanf` output variables) become a
`LoopEnv`.  Machine integers are modelled as `Nat` / `Int` with explicit
`% 2^32` where the 32-bit `unsigned long` semantics matter.
-/

set_option maxRecDepth 4000

namespace Tally

/-- The eight `int` variables filled by `sscanf` in `handleReceivedMessage`:
operator RGB, standby RGB, pattern number, duration. -/
structure RenderCommand where
  opR : Int
  opG : Int
  opB : Int
  stR : Int
  stG : Int
  stB : Int
  patternNumber : Int
  duration : Int
deriving Repr, DecidableEq

/-- A line printed on the serial console: `once m` is a bare line printed by
`logMessageOnce`, `info lvl m` is the `lvl ++ ": " ++ m` line printed by
`logMessage`. -/
inductive LogEvent where
  | once (message : String)
  | info (level : String) (message : String)
deriving Repr, DecidableEq

/-! ### The sscanf model

`handleReceivedMessage` parses with
`sscanf(data, "O%d/%d/%d S%d/%d/%d 0x%x %d", ...)`.
We model C `sscanf` on the input character list: a `%d` conversion skips
whitespace, accepts an optional sign and a nonempty digit run; a `%x`
conversion additionally accepts an optional `0x`/`0X` prefix; an ordinary
format character must match the next input character exactly; a whitespace
format character skips any run of input whitespace.  On the first failing
directive the scan stops; `scanTallyFormat` returns the list of values
assigned up to that point (sscanf leaves the remaining output variables
untouched, i.e. indeterminate). -/

/-- Skip a run of leading whitespace characters. -/
def skipWS : List Char → List Char
  | [] => []
  | c :: cs => if c.isWhitespace then skipWS cs else c :: cs

/-- Consume an optional leading sign; returns (isNegative, rest). -/
def scanSign : List Char → Bool × List Char
  | [] => (false, [])
  | c :: cs =>
    if c = '-' then (true, cs)
    else if c = '+' then (false, cs)
    else (false, c :: cs)

/-- Value of a hexadecimal digit character, if it is one. -/
def hexDigitVal (c : Char) : Option Nat :=
  if c.isDigit then some (c.toNat - 48)
  else if 'a' ≤ c ∧ c ≤ 'f' then some (c.toNat - 87)
  else if 'A' ≤ c ∧ c ≤ 'F' then some (c.toNat - 55)
  else none

/-- Take the maximal leading run of decimal digits (as digit values). -/
def takeDecDigits : List Char → List Nat × List Char
  | [] => ([], [])
  | c :: cs =>
    if c.isDigit then
      ((c.toNat - 48) :: (takeDecDigits cs).1, (takeDecDigits cs).2)
    else ([], c :: cs)

/-- Take the maximal leading run of hexadecimal digits (as digit values). -/
def takeHexDigits : List Char → List Nat × List Char
  | [] => ([], [])
  | c :: cs =>
    match hexDigitVal c with
    | some d => (d :: (takeHexDigits cs).1, (takeHexDigits cs).2)
    | none => ([], c :: cs)

/-- Numeric value of a most-significant-first digit-value list in `base`. -/
def scanValue (base : Nat) (ds : List Nat) : Nat :=
  ds.foldl (fun a d => base * a + d) 0

/-- The `%d` conversion: skip whitespace, optional sign, nonempty digit run. -/
def scanDec (s : List Char) : Option (Int × List Char) :=
  let sg := scanSign (skipWS s)
  let t := takeDecDigits sg.2
  if t.1 = [] then none
  else some (if sg.1 then -(scanValue 10 t.1 : Int) else (scanValue 10 t.1 : Int), t.2)

/-- Strip a `0x` / `0X` prefix when it is followed by a hex digit. -/
def hexPrefixSkip : List Char → List Char
  | z :: x :: more =>
    if z = '0' ∧ (x = 'x' ∨ x = 'X') ∧ (hexDigitVal (more.headD 'g')).isSome then more
    else z :: x :: more
  | s => s

/-- The `%x` conversion: skip whitespace, optional sign, optional `0x`
prefix, nonempty hex digit run. -/
def scanHex (s : List Char) : Option (Int × List Char) :=
  let sg := scanSign (skipWS s)
  let t := takeHexDigits (hexPrefixSkip sg.2)
  if t.1 = [] then none
  else some (if sg.1 then -(scanValue 16 t.1 : Int) else (scanValue 16 t.1 : Int), t.2)

/-- An ordinary format character: must match the next input character. -/
def scanLit (c : Char) : List Char → Option (List Char)
  | [] => none
  | x :: s => if x = c then some s else none

/-- A whitespace format character: skips any input whitespace run. -/
def scanSpace (s : List Char) : List Char := skipWS s

/-- `sscanf(data, "O%d/%d/%d S%d/%d/%d 0x%x %d", ...)`: the list of values
assigned, in order, stopping at the first failing directive. -/
def scanTallyFormat (s : List Char) : List Int :=
  match scanLit 'O' s with
  | none => []
  | some s =>
  match scanDec s with
  | none => []
  | some (v1, s) =>
  match scanLit '/' s with
  | none => [v1]
  | some s =>
  match scanDec s with
  | none => [v1]
  | some (v2, s) =>
  match scanLit '/' s with
  | none => [v1, v2]
  | some s =>
  match scanDec s with
  | none => [v1, v2]
  | some (v3, s) =>
  match scanLit 'S' (scanSpace s) with
  | none => [v1, v2, v3]
  | some s =>
  match scanDec s with
  | none => [v1, v2, v3]
  | some (v4, s) =>
  match scanLit '/' s with
  | none => [v1, v2, v3, v4]
  | some s =>
  match scanDec s with
  | none => [v1, v2, v3, v4]
  | some (v5, s) =>
  match scanLit '/' s with
  | none => [v1, v2, v3, v4, v5]
  | some s =>
  match scanDec s with
  | none => [v1, v2, v3, v4, v5]
  | some (v6, s) =>
  match scanLit '0' (scanSpace s) with
  | none => [v1, v2, v3, v4, v5, v6]
  | some s =>
  match scanLit 'x' s with
  | none => [v1, v2, v3, v4, v5, v6]
  | some s =>
  match scanHex s with
  | none => [v1, v2, v3, v4, v5, v6]
  | some (v7, s) =>
  match scanDec (scanSpace s) with
  | none => [v1, v2, v3, v4, v5, v6, v7]
  | some (v8, _) => [v1, v2, v3, v4, v5, v6, v7, v8]

/-- The values of the eight output variables after the `sscanf` call:
the assigned prefix from the scan, the rest keeping their prior
(indeterminate stack) values `junk`. -/
def fillCommand (junk : RenderCommand) (fs : List Int) : RenderCommand :=
  { opR := fs.getD 0 junk.opR
    opG := fs.getD 1 junk.opG
    opB := fs.getD 2 junk.opB
    stR := fs.getD 3 junk.stR
    stG := fs.getD 4 junk.stG
    stB := fs.getD 5 junk.stB
    patternNumber := fs.getD 6 junk.patternNumber
    duration := fs.getD 7 junk.duration }

/-- The `unsigned long` argument passed to `delay(duration * 1000)`:
the `int` product converted to 32-bit unsigned, modelled as the
mathematical product reduced mod `2^32`. -/
def delayArg (duration : Int) : Nat := ((duration * 1000) % 4294967296).toNat

/-- `updateLEDs(r, g, b)`: every pixel of the strip is set to `(r,g,b)`. -/
def updateLEDs (ledCount : Nat) (r g b : Int) : List (Int × Int × Int) :=
  List.replicate ledCount (r, g, b)

/-- Result of `handleReceivedMessage`: the color written to the strip,
the number of milliseconds the loop is blocked by `delay`, and the
serial log line. -/
structure RecvResult where
  color : Int × Int × Int
  holdMs : Nat
  logLine : LogEvent
deriving Repr, DecidableEq

/-- `handleReceivedMessage(data)` (the payload is NUL-free, so
`strlen(data)` is its length): parse with `sscanf` ignoring its return
value, render the operator color, and when `strlen(data) > 25` also block
in `delay(duration * 1000)`. -/
def handleReceivedMessage (junk : RenderCommand) (data : List Char) : RecvResult :=
  let c := fillCommand junk (scanTallyFormat data)
  { color := (c.opR, c.opG, c.opB)
    holdMs := if data.length > 25 then delayArg c.duration else 0
    logLine := LogEvent.info "INFO" (String.mk data) }

/-! ### Well-formed payloads

Canonical printing of a well-formed command payload, used to state the
parser roundtrip properties. -/

/-- The character of a decimal digit value. -/
def decDigitChar (d : Nat) : Char := Char.ofNat (48 + d)

/-- The character of a hexadecimal digit value (lowercase). -/
def hexDigitChar (d : Nat) : Char :=
  if d < 10 then Char.ofNat (48 + d) else Char.ofNat (87 + d)

/-- Digit values of `n` in base `b`, most significant first (fuel-driven
structural recursion; with `fuel ≥ n` all digits of `n` are produced). -/
def digitsAuxBase (b : Nat) : Nat → Nat → List Nat
  | 0, _ => []
  | fuel + 1, n => if n = 0 then [] else digitsAuxBase b fuel (n / b) ++ [n % b]

/-- Decimal digit values of `n`, most significant first (`0` prints as `0`). -/
def decDigitsOf (n : Nat) : List Nat :=
  if n = 0 then [0] else digitsAuxBase 10 n n

/-- Hexadecimal digit values of `n`, most significant first. -/
def hexDigitsOf (n : Nat) : List Nat :=
  if n = 0 then [0] else digitsAuxBase 16 n n

/-- Decimal printing of `n`. -/
def decChars (n : Nat) : List Char := (decDigitsOf n).map decDigitChar

/-- Hexadecimal printing of `n` (no `0x` prefix, lowercase). -/
def hexChars (n : Nat) : List Char := (hexDigitsOf n).map hexDigitChar

/-- The canonical well-formed payload
`O<opR>/<opG>/<opB> S<stR>/<stG>/<stB> 0x<pat> <dur>`. -/
def formatPayload (opR opG opB stR stG stB pat dur : Nat) : List Char :=
  ['O'] ++ decChars opR ++ ['/'] ++ decChars opG ++ ['/'] ++ decChars opB
    ++ [' ', 'S'] ++ decChars stR ++ ['/'] ++ decChars stG ++ ['/'] ++ decChars stB
    ++ [' ', '0', 'x'] ++ hexChars pat ++ [' '] ++ decChars dur

/-! ### Clock arithmetic and the watchdog -/

/-- `diffMicroSeconds(time)` with the two `micros()` readings made
explicit: `if (now < time) return now + (4294967295 - time); else return
now - time;`. -/
def diffMicroSeconds (now time : Nat) : Nat :=
  if now < time then now + (4294967295 - time) else now - time

/-- The connectivity status string logged by the watchdog branch of
`loop()`. -/
def connStatusMsg (elapsed : Nat) : String :=
  if elapsed > 3000000 then "DISCONNECTED" else "CONNECTED"

/-- The override color written by the watchdog branch of `loop()`:
red when disconnected, nothing otherwise. -/
def watchdogRedOverride (elapsed : Nat) : Option (Int × Int × Int) :=
  if elapsed > 3000000 then some (255, 0, 0) else none

/-! ### The control loop -/

/-- External inputs of one `loop()` iteration. -/
structure LoopEnv where
  wifiConnected : Bool
  packet : Option (List Char)
  junk : RenderCommand
  microsRecv : Nat
  microsNow : Nat
  millis : Nat
deriving Repr

/-- The mutable globals read and written by one `loop()` iteration. -/
structure LoopState where
  lastStatus : String
  timeLastPackageReceived : Nat
  led : Int × Int × Int
deriving Repr, DecidableEq

/-- Observable outputs of one `loop()` iteration. -/
structure LoopOut where
  logs : List LogEvent
  heartbeatSent : Bool
deriving Repr, DecidableEq

/-- `logMessageOnce(message)`: print and remember `message` only when it
differs from `lastStatus`. -/
def logMessageOnce (lastStatus message : String) : String × List LogEvent :=
  if lastStatus ≠ message then (message, [LogEvent.once message]) else (lastStatus, [])

/-- `sendTallyStatus`: when WiFi is up, transmit the status datagram and
log success once; otherwise log the failure once.  Returns the updated
`lastStatus`, the log lines, and whether a datagram was sent. -/
def sendTallyStatus (wifiConnected : Bool) (lastStatus : String) :
    String × List LogEvent × Bool :=
  if wifiConnected then
    let r := logMessageOnce lastStatus "Sent status to hub"
    (r.1, r.2, true)
  else
    let r := logMessageOnce lastStatus "Failed to send status, not connected to WiFi"
    (r.1, r.2, false)

/-- `checkWiFiConnection()`: log the reconnect notice once when WiFi is
down. -/
def wifiCheckLogs (wifiConnected : Bool) (lastStatus : String) :
    String × List LogEvent :=
  if wifiConnected then (lastStatus, [])
  else logMessageOnce lastStatus "RECONNECTING TO WIFI"

/-- The UDP receive step of `loop()`: on a datagram, stamp
`timeLastPackageReceived` with the `micros()` reading and run
`handleReceivedMessage`. -/
def packetPhase (junk : RenderCommand) (microsRecv : Nat)
    (packet : Option (List Char)) (tlpr : Nat) (led : Int × Int × Int) :
    Nat × (Int × Int × Int) × List LogEvent :=
  match packet with
  | none => (tlpr, led, [])
  | some data =>
    let r := handleReceivedMessage junk data
    (microsRecv, r.color, [r.logLine])

/-- The watchdog step of `loop()`: override the strip with red when
disconnected, and log the connectivity status via `logMessageOnce`. -/
def watchdogPhase (lastStatus : String) (led : Int × Int × Int) (elapsed : Nat) :
    (Int × Int × Int) × String × List LogEvent :=
  let led2 := match watchdogRedOverride elapsed with
    | some c => c
    | none => led
  let r := logMessageOnce lastStatus (connStatusMsg elapsed)
  (led2, r.1, r.2)

/-- The heartbeat step of `loop()`: `if (millis() % 1000 < 100)
sendTallyStatus(...)`. -/
def heartbeatPhase (wifiConnected : Bool) (millis : Nat) (lastStatus : String) :
    String × List LogEvent × Bool :=
  if millis % 1000 < 100 then sendTallyStatus wifiConnected lastStatus
  else (lastStatus, [], false)

/-- One iteration of `loop()` (the reset-button branch, which only
restarts the device, is an external collaborator and not modelled). -/
def loopStep (env : LoopEnv) (st : LoopState) : LoopState × LoopOut :=
  let w := wifiCheckLogs env.wifiConnected st.lastStatus
  if env.wifiConnected then
    let p := packetPhase env.junk env.microsRecv env.packet
      st.timeLastPackageReceived st.led
    let elapsed := diffMicroSeconds env.microsNow p.1
    let wd := watchdogPhase w.1 p.2.1 elapsed
    let hb := heartbeatPhase env.wifiConnected env.millis wd.2.1
    ({ lastStatus := hb.1, timeLastPackageReceived := p.1, led := wd.1 },
     { logs := w.2 ++ p.2.2 ++ wd.2.2 ++ hb.2.1, heartbeatSent := hb.2.2 })
  else
    ({ st with lastStatus := w.1 }, { logs := w.2, heartbeatSent := false })

/-- Run of consecutive `loop()` iterations under a list of per-iteration
environments; returns the final state and the per-iteration outputs. -/
def runLoop : List LoopEnv → LoopState → LoopState × List LoopOut
  | [], st => (st, [])
  | env :: rest, st =>
    let p := loopStep env st
    let r := runLoop rest p.1
    (r.1, p.2 :: r.2)

/-- Number of connectivity status lines (`CONNECTED` / `DISCONNECTED`)
among a list of log lines. -/
def connLogCount (logs : List LogEvent) : Nat :=
  logs.count (LogEvent.once "CONNECTED") + logs.count (LogEvent.once "DISCONNECTED")

/-- Number of iterations of a run that sent a heartbeat datagram. -/
def heartbeatCount (outs : List LoopOut) : Nat :=
  (outs.filter (·.heartbeatSent)).length

/-! ### The UDP receive buffer -/

/-- `char incomingPacket[255]`: capacity of the receive buffer. -/
def incomingPacketCapacity : Nat := 255

/-- `udp.read(incomingPacket, 255)` reads at most 255 bytes of the
datagram: the returned length for a datagram of `packetSize` bytes. -/
def udpReadLen (packetSize : Nat) : Nat := min packetSize incomingPacketCapacity

/-- Whether the store `incomingPacket[len] = 0` is inside the buffer. -/
def nullTerminatorInBounds (len : Nat) : Bool := len < incomingPacketCapacity

/-- Whether a character list does not begin with a decimal digit. -/
def headNotDec : List Char → Bool
  | [] => true
  | c :: _ => !c.isDigit

/-- Whether a character list does not begin with a hexadecimal digit. -/
def headNotHex : List Char → Bool
  | [] => true
  | c :: _ => (hexDigitVal c).isNone

end Tally

namespace Tally

/-! ### Helper lemmas: digit characters and digit lists -/

lemma decDigitChar_fact :
    ∀ d, d < 10 → ((decDigitChar d).isDigit = true ∧
      (decDigitChar d).isWhitespace = false ∧
      decDigitChar d ≠ '-' ∧ decDigitChar d ≠ '+' ∧
      (decDigitChar d).toNat - 48 = d) := by decide

lemma hexDigitChar_fact :
    ∀ d, d < 16 → (hexDigitVal (hexDigitChar d) = some d ∧
      (hexDigitChar d).isWhitespace = false ∧
      hexDigitChar d ≠ '-' ∧ hexDigitChar d ≠ '+' ∧
      hexDigitChar d ≠ 'x' ∧ hexDigitChar d ≠ 'X') := by decide

lemma digitsAuxBase_lt (b : Nat) (hb : 0 < b) :
    ∀ fuel n d, d ∈ digitsAuxBase b fuel n → d < b := by
  intro fuel
  induction fuel with
  | zero => intro n d hd; simp [digitsAuxBase] at hd
  | succ fuel ih =>
    intro n d hd
    by_cases hn : n = 0
    · simp [digitsAuxBase, hn] at hd
    · simp only [digitsAuxBase, hn, if_false, List.mem_append,
        List.mem_singleton] at hd
      rcases hd with hd | hd
      · exact ih _ _ hd
      · subst hd; exact Nat.mod_lt _ hb

lemma digitsAuxBase_ne_nil (b : Nat) (fuel n : Nat) (hn : n ≠ 0)
    (hf : fuel ≠ 0) : digitsAuxBase b fuel n ≠ [] := by
  cases fuel with
  | zero => exact absurd rfl hf
  | succ fuel => simp [digitsAuxBase, hn]

lemma scanValue_append (b : Nat) (l : List Nat) (a : Nat) :
    scanValue b (l ++ [a]) = b * scanValue b l + a := by
  simp [scanValue, List.foldl_append]

lemma scanValue_digitsAuxBase (b : Nat) (hb : 1 < b) :
    ∀ fuel n, n ≤ fuel → scanValue b (digitsAuxBase b fuel n) = n := by
  intro fuel
  induction fuel with
  | zero => intro n hn; interval_cases n; simp [digitsAuxBase, scanValue]
  | succ fuel ih =>
    intro n hn
    by_cases h0 : n = 0
    · simp [digitsAuxBase, h0, scanValue]
    · have hdiv : n / b < n := Nat.div_lt_self (Nat.pos_of_ne_zero h0) hb
      rw [digitsAuxBase, if_neg h0, scanValue_append, ih (n / b) (by omega)]
      exact Nat.div_add_mod n b

lemma decDigitsOf_lt (n : Nat) : ∀ d ∈ decDigitsOf n, d < 10 := by
  unfold decDigitsOf
  split
  · intro d hd
    simp only [List.mem_singleton] at hd
    omega
  · intro d hd
    exact digitsAuxBase_lt 10 (by norm_num) n n d hd

lemma hexDigitsOf_lt (n : Nat) : ∀ d ∈ hexDigitsOf n, d < 16 := by
  unfold hexDigitsOf
  split
  · intro d hd
    simp only [List.mem_singleton] at hd
    omega
  · intro d hd
    exact digitsAuxBase_lt 16 (by norm_num) n n d hd

lemma decDigitsOf_ne_nil (n : Nat) : decDigitsOf n ≠ [] := by
  unfold decDigitsOf
  split
  · simp
  · exact digitsAuxBase_ne_nil 10 n n (by assumption) (by assumption)

lemma hexDigitsOf_ne_nil (n : Nat) : hexDigitsOf n ≠ [] := by
  unfold hexDigitsOf
  split
  · simp
  · exact digitsAuxBase_ne_nil 16 n n (by assumption) (by assumption)

lemma scanValue_decDigitsOf (n : Nat) : scanValue 10 (decDigitsOf n) = n := by
  unfold decDigitsOf
  split
  · simp [scanValue]
    omega
  · exact scanValue_digitsAuxBase 10 (by norm_num) n n le_rfl

lemma scanValue_hexDigitsOf (n : Nat) : scanValue 16 (hexDigitsOf n) = n := by
  unfold hexDigitsOf
  split
  · simp [scanValue]
    omega
  · exact scanValue_digitsAuxBase 16 (by norm_num) n n le_rfl


end Tally

namespace Tally

/-! ### Helper lemmas: the scanning primitives on canonical digit runs -/

lemma takeDecDigits_map (ds : List Nat) (rest : List Char)
    (h : ∀ d ∈ ds, d < 10) (hr : headNotDec rest = true) :
    takeDecDigits (ds.map decDigitChar ++ rest) = (ds, rest) := by
  induction ds with
  | nil =>
    cases rest with
    | nil => rfl
    | cons c l =>
      simp only [headNotDec, Bool.not_eq_true'] at hr
      simp [takeDecDigits, hr]
  | cons d ds ih =>
    have hd := decDigitChar_fact d (h d (by simp))
    have hrec := ih (fun x hx => h x (by simp [hx]))
    simp only [List.map_cons, List.cons_append, takeDecDigits, hd.1, if_true,
      List.append_eq, hrec, hd.2.2.2.2]

lemma takeHexDigits_map (ds : List Nat) (rest : List Char)
    (h : ∀ d ∈ ds, d < 16) (hr : headNotHex rest = true) :
    takeHexDigits (ds.map hexDigitChar ++ rest) = (ds, rest) := by
  induction ds with
  | nil =>
    cases rest with
    | nil => rfl
    | cons c l =>
      simp only [headNotHex, Option.isNone_iff_eq_none] at hr
      simp [takeHexDigits, hr]
  | cons d ds ih =>
    have hd := hexDigitChar_fact d (h d (by simp))
    have hrec := ih (fun x hx => h x (by simp [hx]))
    simp only [List.map_cons, List.cons_append, takeHexDigits, hd.1,
      List.append_eq, hrec]

lemma skipWS_cons_of_not_ws (c : Char) (s : List Char)
    (h : c.isWhitespace = false) : skipWS (c :: s) = c :: s := by
  simp [skipWS, h]

lemma scanSign_cons_of_not_sign (c : Char) (s : List Char)
    (h1 : c ≠ '-') (h2 : c ≠ '+') : scanSign (c :: s) = (false, c :: s) := by
  simp [scanSign, h1, h2]

lemma scanDec_format (n : Nat) (rest : List Char) (hr : headNotDec rest = true) :
    scanDec (decChars n ++ rest) = some ((n : Int), rest) := by
  obtain ⟨d0, ds, hds⟩ := List.exists_cons_of_ne_nil (decDigitsOf_ne_nil n)
  have hd0 : d0 < 10 := decDigitsOf_lt n d0 (by rw [hds]; simp)
  have hf := decDigitChar_fact d0 hd0
  have hmap : decChars n ++ rest = decDigitChar d0 :: (ds.map decDigitChar ++ rest) := by
    simp [decChars, hds]
  rw [scanDec, hmap, skipWS_cons_of_not_ws _ _ hf.2.1,
    scanSign_cons_of_not_sign _ _ hf.2.2.1 hf.2.2.2.1]
  have htake : takeDecDigits (decDigitChar d0 :: (ds.map decDigitChar ++ rest))
      = (decDigitsOf n, rest) := by
    have := takeDecDigits_map (decDigitsOf n) rest (decDigitsOf_lt n) hr
    rw [hds] at this
    simpa [hds] using this
  rw [htake]
  simp [decDigitsOf_ne_nil n, scanValue_decDigitsOf]

end Tally

namespace Tally

lemma hexPrefixSkip_format (n : Nat) (r : List Char) :
    hexPrefixSkip (hexChars n ++ ' ' :: r) = hexChars n ++ ' ' :: r := by
  obtain ⟨d0, ds, hds⟩ := List.exists_cons_of_ne_nil (hexDigitsOf_ne_nil n)
  have hmap : hexChars n ++ ' ' :: r
      = hexDigitChar d0 :: (ds.map hexDigitChar ++ ' ' :: r) := by
    simp [hexChars, hds]
  rw [hmap]
  cases ds with
  | nil =>
    simp only [List.map_nil, List.nil_append, hexPrefixSkip]
    rw [if_neg]
    rintro ⟨-, hx, -⟩
    rcases hx with hx | hx <;> exact absurd hx (by decide)
  | cons d1 ds1 =>
    have hd1 : d1 < 16 := by
      refine hexDigitsOf_lt n d1 ?_
      rw [hds]
      simp
    have hf := hexDigitChar_fact d1 hd1
    simp only [List.map_cons, List.cons_append, hexPrefixSkip]
    rw [if_neg]
    rintro ⟨-, hx, -⟩
    rcases hx with hx | hx
    · exact hf.2.2.2.2.1 hx
    · exact hf.2.2.2.2.2 hx

lemma headNotHex_space (r : List Char) : headNotHex (' ' :: r) = true := by
  simp [headNotHex, hexDigitVal]

lemma scanHex_format (n : Nat) (r : List Char) :
    scanHex (hexChars n ++ ' ' :: r) = some ((n : Int), ' ' :: r) := by
  obtain ⟨d0, ds, hds⟩ := List.exists_cons_of_ne_nil (hexDigitsOf_ne_nil n)
  have hd0 : d0 < 16 := hexDigitsOf_lt n d0 (by rw [hds]; simp)
  have hf := hexDigitChar_fact d0 hd0
  have hmap : hexChars n ++ ' ' :: r
      = hexDigitChar d0 :: (ds.map hexDigitChar ++ ' ' :: r) := by
    simp [hexChars, hds]
  rw [scanHex, hmap, skipWS_cons_of_not_ws _ _ hf.2.1,
    scanSign_cons_of_not_sign _ _ hf.2.2.1 hf.2.2.2.1, ← hmap, hexPrefixSkip_format]
  have htake : takeHexDigits (hexChars n ++ ' ' :: r) = (hexDigitsOf n, ' ' :: r) := by
    have := takeHexDigits_map (hexDigitsOf n) (' ' :: r) (hexDigitsOf_lt n)
      (headNotHex_space r)
    simpa [hexChars] using this
  rw [htake]
  simp [hexDigitsOf_ne_nil n, scanValue_hexDigitsOf]

end Tally

namespace Tally

lemma scanLit_cons_self (c : Char) (s : List Char) : scanLit c (c :: s) = some s := by
  simp [scanLit]

lemma headNotDec_slash (r : List Char) : headNotDec ('/' :: r) = true := by
  simp [headNotDec]

lemma headNotDec_space (r : List Char) : headNotDec (' ' :: r) = true := by
  simp [headNotDec]

lemma scanDec_slash (n : Nat) (r : List Char) :
    scanDec (decChars n ++ '/' :: r) = some ((n : Int), '/' :: r) :=
  scanDec_format n ('/' :: r) (headNotDec_slash r)

lemma scanDec_space (n : Nat) (r : List Char) :
    scanDec (decChars n ++ ' ' :: r) = some ((n : Int), ' ' :: r) :=
  scanDec_format n (' ' :: r) (headNotDec_space r)

lemma scanDec_nil (n : Nat) : scanDec (decChars n) = some ((n : Int), []) := by
  have := scanDec_format n [] (by rfl)
  simpa using this

lemma scanSpace_space (s : List Char) : scanSpace (' ' :: s) = scanSpace s := by
  simp [scanSpace, skipWS]

lemma scanSpace_S (s : List Char) : scanSpace ('S' :: s) = 'S' :: s :=
  skipWS_cons_of_not_ws 'S' s (by decide)

lemma scanSpace_zeroChar (s : List Char) : scanSpace ('0' :: s) = '0' :: s :=
  skipWS_cons_of_not_ws '0' s (by decide)

lemma scanSpace_decChars (n : Nat) : scanSpace (decChars n) = decChars n := by
  obtain ⟨d0, ds, hds⟩ := List.exists_cons_of_ne_nil (decDigitsOf_ne_nil n)
  have hd0 : d0 < 10 := decDigitsOf_lt n d0 (by rw [hds]; simp)
  have hf := decDigitChar_fact d0 hd0
  have hmap : decChars n = decDigitChar d0 :: ds.map decDigitChar := by
    simp [decChars, hds]
  rw [hmap]
  exact skipWS_cons_of_not_ws _ _ hf.2.1

/-- Parser roundtrip: scanning the canonical well-formed payload assigns
exactly the eight embedded values, in order. -/
lemma scanTallyFormat_formatPayload (a b c d e f g h : Nat) :
    scanTallyFormat (formatPayload a b c d e f g h) =
      [(a : Int), (b : Int), (c : Int), (d : Int), (e : Int), (f : Int),
        (g : Int), (h : Int)] := by
  unfold formatPayload
  simp only [List.cons_append, List.nil_append, List.append_assoc]
  unfold scanTallyFormat
  simp only [scanLit_cons_self, scanDec_slash, scanDec_space, scanDec_nil,
    scanSpace_space, scanSpace_S, scanSpace_zeroChar, scanSpace_decChars,
    scanHex_format]

end Tally

namespace Tally

/-! ### Claim theorems -/

/-- C1: the claim (and the spec) require every malformed payload to fail
with ParseError::Malformed and produce no RenderCommand.  The code instead
ignores the sscanf return value: on the non-matching payload "hi" no field
is assigned, and the indeterminate stack values `junk` of the output
variables are propagated to the renderer as the strip color. -/
theorem C1_malformed_payload_renders_indeterminate_values :
    ∀ junk : RenderCommand,
      scanTallyFormat (String.toList "hi") = [] ∧
      (handleReceivedMessage junk (String.toList "hi")).color
        = (junk.opR, junk.opG, junk.opB) := by
  intro junk
  exact ⟨rfl, rfl⟩

/-- C4 counterexample: with `lastReceivedTimestamp = 4294967290` (near the
maximum clock value) and `clockNow = 5` (just past zero), the code computes
10 while the true small interval `(clockNow - lastReceivedTimestamp) mod
2^32` is 11: `diffMicroSeconds` is off by one across wraparound. -/
theorem C4_counterexample_wraparound_off_by_one :
    diffMicroSeconds 5 4294967290 = 10 ∧
    (5 + 4294967296 - 4294967290) % 4294967296 = 11 ∧
    (10 : Nat) ≠ 11 := by decide

/-- C4 amended: the elapsed-time computation never yields a negative or
overflowed value; it equals the true interval exactly when the counter has
not wrapped, and the true small interval minus one microsecond when it has
(the code adds `4294967295 = 2^32 - 1` instead of `2^32`). -/
theorem C4_amended_elapsed_within_one_microsecond :
    ∀ now time : Nat, now < 4294967296 → time < 4294967296 →
      (time ≤ now →
        diffMicroSeconds now time = (now + 4294967296 - time) % 4294967296) ∧
      (now < time →
        diffMicroSeconds now time + 1 = (now + 4294967296 - time) % 4294967296) := by
  intro now time hn ht
  unfold diffMicroSeconds
  constructor
  · intro h
    rw [if_neg (by omega)]
    omega
  · intro h
    rw [if_pos h]
    omega

/-- C4 amended, witness at the wrapped pair (5, 4294967290). -/
theorem C4_amended_witness :
    5 < 4294967296 ∧ 4294967290 < 4294967296 ∧ 5 < 4294967290 ∧
      diffMicroSeconds 5 4294967290 + 1 = (5 + 4294967296 - 4294967290) % 4294967296 :=
  ⟨by decide, by decide, by decide,
    (C4_amended_elapsed_within_one_microsecond 5 4294967290 (by decide) (by decide)).2
      (by decide)⟩

/-- C5: at elapsed exactly 3,000,000 µs the watchdog stays CONNECTED; at
any strictly larger elapsed (3,000,001 µs in particular) it reports
DISCONNECTED and the red override color (255,0,0) is rendered. -/
theorem C5_watchdog_boundary :
    connStatusMsg 3000000 = "CONNECTED" ∧
    ∀ e : Nat, 3000000 < e →
      connStatusMsg e = "DISCONNECTED" ∧ watchdogRedOverride e = some (255, 0, 0) := by
  refine ⟨rfl, ?_⟩
  intro e he
  constructor
  · simp [connStatusMsg, he]
  · simp [watchdogRedOverride, he]

/-- C5 witness at elapsed = 3,000,001 µs. -/
theorem C5_watchdog_boundary_witness :
    3000000 < 3000001 ∧
      (connStatusMsg 3000001 = "DISCONNECTED" ∧
        watchdogRedOverride 3000001 = some (255, 0, 0)) :=
  ⟨by decide, C5_watchdog_boundary.2 3000001 (by decide)⟩

/-- C10: the claim asserts `incomingPacket[len] = 0` is always in bounds,
but `udp.read(incomingPacket, 255)` can return 255 for a 255-byte-or-larger
datagram, and index 255 is one past the end of the 255-byte buffer
(valid indices 0..254): the store overflows the buffer. -/
theorem C10_null_terminator_store_out_of_bounds :
    udpReadLen 255 = 255 ∧ 0 < udpReadLen 255 ∧
    nullTerminatorInBounds (udpReadLen 255) = false := by decide

end Tally

namespace Tally

/-- C6: parsing a well-formed payload yields exactly the literal embedded
field values: for every canonical payload whose eight fields are
`int`-representable the parsed command equals the formatted one, and in
particular the spec example "O255/0/0 S0/0/255 0x01 5" parses to
operator=(255,0,0), standby=(0,0,255), pattern=1, duration=5. -/
theorem C6_wellformed_payload_parses_to_literals :
    (∀ a b c d e f g h : Nat, ∀ junk : RenderCommand,
      a < 2147483648 ∧ b < 2147483648 ∧ c < 2147483648 ∧ d < 2147483648 ∧
        e < 2147483648 ∧ f < 2147483648 ∧ g < 2147483648 ∧ h < 2147483648 →
      fillCommand junk (scanTallyFormat (formatPayload a b c d e f g h))
        = ⟨(a : Int), (b : Int), (c : Int), (d : Int), (e : Int), (f : Int),
            (g : Int), (h : Int)⟩) ∧
    fillCommand ⟨0, 0, 0, 0, 0, 0, 0, 0⟩
        (scanTallyFormat (String.toList "O255/0/0 S0/0/255 0x01 5"))
      = ⟨255, 0, 0, 0, 0, 255, 1, 5⟩ := by
  constructor
  · intro a b c d e f g h junk hbound
    simp only [scanTallyFormat_formatPayload, fillCommand, List.getD_cons_succ,
      List.getD_cons_zero]
  · decide

/-- C6 witness at the example field values. -/
theorem C6_wellformed_payload_witness :
    (255 < 2147483648 ∧ 0 < 2147483648 ∧ 0 < 2147483648 ∧ 0 < 2147483648 ∧
      0 < 2147483648 ∧ 255 < 2147483648 ∧ 1 < 2147483648 ∧ 5 < 2147483648) ∧
    fillCommand ⟨9, 8, 7, 6, 5, 4, 3, 2⟩
        (scanTallyFormat (formatPayload 255 0 0 0 0 255 1 5))
      = ⟨255, 0, 0, 0, 0, 255, 1, 5⟩ :=
  ⟨by decide,
    C6_wellformed_payload_parses_to_literals.1 255 0 0 0 0 255 1 5
      ⟨9, 8, 7, 6, 5, 4, 3, 2⟩ (by decide)⟩

/-- C9: the rendered strip color depends only on the operator RGB fields:
two well-formed payloads that differ only in the standby RGB and/or the
pattern id (and even in the indeterminate stack values) render the same
color, namely the operator color, on every pixel of the strip. -/
theorem C9_render_independent_of_standby_and_pattern :
    ∀ (opR opG opB stR1 stG1 stB1 pat1 stR2 stG2 stB2 pat2 dur : Nat)
      (junk1 junk2 : RenderCommand) (ledCount : Nat),
      opR < 2147483648 ∧ opG < 2147483648 ∧ opB < 2147483648 ∧
        stR1 < 2147483648 ∧ stG1 < 2147483648 ∧ stB1 < 2147483648 ∧
        pat1 < 2147483648 ∧ stR2 < 2147483648 ∧ stG2 < 2147483648 ∧
        stB2 < 2147483648 ∧ pat2 < 2147483648 ∧ dur < 2147483648 →
      (handleReceivedMessage junk1
          (formatPayload opR opG opB stR1 stG1 stB1 pat1 dur)).color
        = (handleReceivedMessage junk2
            (formatPayload opR opG opB stR2 stG2 stB2 pat2 dur)).color ∧
      (handleReceivedMessage junk1
          (formatPayload opR opG opB stR1 stG1 stB1 pat1 dur)).color
        = ((opR : Int), (opG : Int), (opB : Int)) ∧
      updateLEDs ledCount (opR : Int) (opG : Int) (opB : Int)
        = updateLEDs ledCount
            (handleReceivedMessage junk2
              (formatPayload opR opG opB stR2 stG2 stB2 pat2 dur)).color.1
            (handleReceivedMessage junk2
              (formatPayload opR opG opB stR2 stG2 stB2 pat2 dur)).color.2.1
            (handleReceivedMessage junk2
              (formatPayload opR opG opB stR2 stG2 stB2 pat2 dur)).color.2.2 := by
  intro opR opG opB stR1 stG1 stB1 pat1 stR2 stG2 stB2 pat2 dur junk1 junk2 n hb
  simp only [handleReceivedMessage, scanTallyFormat_formatPayload, fillCommand,
    List.getD_cons_succ, List.getD_cons_zero]
  trivial

/-- C9 witness: payloads "O255/0/0 S0/0/255 0x1 5" and "O255/0/0 S9/9/9 0x2 5". -/
theorem C9_render_independent_witness :
    (255 < 2147483648 ∧ 0 < 2147483648 ∧ 0 < 2147483648 ∧
      0 < 2147483648 ∧ 0 < 2147483648 ∧ 255 < 2147483648 ∧
      1 < 2147483648 ∧ 9 < 2147483648 ∧ 9 < 2147483648 ∧
      9 < 2147483648 ∧ 2 < 2147483648 ∧ 5 < 2147483648) ∧
    ((handleReceivedMessage ⟨0, 0, 0, 0, 0, 0, 0, 0⟩
        (formatPayload 255 0 0 0 0 255 1 5)).color
      = (handleReceivedMessage ⟨1, 1, 1, 1, 1, 1, 1, 1⟩
          (formatPayload 255 0 0 9 9 9 2 5)).color ∧
    (handleReceivedMessage ⟨0, 0, 0, 0, 0, 0, 0, 0⟩
        (formatPayload 255 0 0 0 0 255 1 5)).color = (255, 0, 0) ∧
    updateLEDs 16 255 0 0
      = updateLEDs 16
          (handleReceivedMessage ⟨1, 1, 1, 1, 1, 1, 1, 1⟩
            (formatPayload 255 0 0 9 9 9 2 5)).color.1
          (handleReceivedMessage ⟨1, 1, 1, 1, 1, 1, 1, 1⟩
            (formatPayload 255 0 0 9 9 9 2 5)).color.2.1
          (handleReceivedMessage ⟨1, 1, 1, 1, 1, 1, 1, 1⟩
            (formatPayload 255 0 0 9 9 9 2 5)).color.2.2) :=
  ⟨by decide,
    C9_render_independent_of_standby_and_pattern 255 0 0 0 0 255 1 9 9 9 2 5
      ⟨0, 0, 0, 0, 0, 0, 0, 0⟩ ⟨1, 1, 1, 1, 1, 1, 1, 1⟩ 16 (by decide)⟩

/-- C3 counterexample: the 26-byte payload "O255/0/0 S0/100/255 0x01 5"
has duration field 5, but the code blocks for 5000 milliseconds
(`delay(duration * 1000)`), not 5 milliseconds. -/
theorem C3_counterexample_hold_is_thousandfold :
    (String.toList "O255/0/0 S0/100/255 0x01 5").length > 25 ∧
    scanTallyFormat (String.toList "O255/0/0 S0/100/255 0x01 5")
      = [255, 0, 0, 0, 100, 255, 1, 5] ∧
    (handleReceivedMessage ⟨0, 0, 0, 0, 0, 0, 0, 0⟩
      (String.toList "O255/0/0 S0/100/255 0x01 5")).holdMs = 5000 ∧
    (5000 : Nat) ≠ 5 := by decide

/-- C3 amended: for every well-formed payload longer than 25 bytes the
device renders the operator color and then blocks for `duration * 1000`
milliseconds (i.e. `duration` seconds), not `duration` milliseconds. -/
theorem C3_amended_hold_is_duration_times_thousand :
    ∀ (a b c d e f g h : Nat) (junk : RenderCommand),
      h * 1000 < 2147483648 →
      (formatPayload a b c d e f g h).length > 25 →
      (handleReceivedMessage junk (formatPayload a b c d e f g h)).color
          = ((a : Int), (b : Int), (c : Int)) ∧
      (handleReceivedMessage junk (formatPayload a b c d e f g h)).holdMs
          = h * 1000 := by
  intro a b c d e f g h junk hb hlen
  simp only [handleReceivedMessage, scanTallyFormat_formatPayload]
  rw [if_pos hlen]
  simp only [fillCommand, List.getD_cons_succ, List.getD_cons_zero]
  refine ⟨trivial, ?_⟩
  unfold delayArg
  omega

/-- C3 amended, witness at the payload "O255/0/0 S0/100/255 0x1 55". -/
theorem C3_amended_hold_witness :
    55 * 1000 < 2147483648 ∧
    (formatPayload 255 0 0 0 100 255 1 55).length > 25 ∧
    ((handleReceivedMessage ⟨0, 0, 0, 0, 0, 0, 0, 0⟩
        (formatPayload 255 0 0 0 100 255 1 55)).color = (255, 0, 0) ∧
      (handleReceivedMessage ⟨0, 0, 0, 0, 0, 0, 0, 0⟩
        (formatPayload 255 0 0 0 100 255 1 55)).holdMs = 55 * 1000) :=
  ⟨by decide, by decide,
    C3_amended_hold_is_duration_times_thousand 255 0 0 0 100 255 1 55
      ⟨0, 0, 0, 0, 0, 0, 0, 0⟩ (by decide) (by decide)⟩

end Tally

namespace Tally

/-! ### Helper lemmas: counting connectivity log lines -/

lemma connLogCount_append (l1 l2 : List LogEvent) :
    connLogCount (l1 ++ l2) = connLogCount l1 + connLogCount l2 := by
  simp only [connLogCount, List.count_append]
  omega

lemma connLogCount_logMessageOnce_other (ls m : String)
    (h1 : m ≠ "CONNECTED") (h2 : m ≠ "DISCONNECTED") :
    connLogCount (logMessageOnce ls m).2 = 0 := by
  unfold logMessageOnce
  by_cases h : ls ≠ m
  · rw [if_pos h]
    simp [connLogCount, List.count_cons, List.count_nil, h1, h2]
  · rw [if_neg h]
    rfl

lemma connLogCount_sendTallyStatus (w : Bool) (ls : String) :
    connLogCount (sendTallyStatus w ls).2.1 = 0 := by
  cases w
  · show connLogCount
      (logMessageOnce ls "Failed to send status, not connected to WiFi").2 = 0
    exact connLogCount_logMessageOnce_other _ _ (by decide) (by decide)
  · show connLogCount (logMessageOnce ls "Sent status to hub").2 = 0
    exact connLogCount_logMessageOnce_other _ _ (by decide) (by decide)

lemma connLogCount_logMessageOnce_conn (ls : String) (elapsed : Nat) :
    connLogCount (logMessageOnce ls (connStatusMsg elapsed)).2
      = if connStatusMsg elapsed = ls then 0 else 1 := by
  unfold logMessageOnce
  by_cases h : connStatusMsg elapsed = ls
  · rw [if_pos h, if_neg (by simp [h.symm])]
    rfl
  · rw [if_neg h, if_pos (fun hh => h hh.symm)]
    unfold connStatusMsg
    split <;> decide

/-! ### Claim theorems: the control loop -/

/-- C2 counterexample: an iteration with WiFi up, elapsed = 4,000,000 µs
(watchdog DISCONNECTED, red override rendered) and `millis() % 1000 = 0`
still sends the heartbeat: the heartbeat is not suppressed while
DISCONNECTED. -/
theorem C2_counterexample_heartbeat_while_disconnected :
    diffMicroSeconds 4000000 0 > 3000000 ∧
    connStatusMsg (diffMicroSeconds 4000000 0) = "DISCONNECTED" ∧
    (loopStep (⟨true, none, ⟨0, 0, 0, 0, 0, 0, 0, 0⟩, 0, 4000000, 0⟩ : LoopEnv)
        (⟨"", 0, (0, 0, 0)⟩ : LoopState)).2.heartbeatSent = true ∧
    (loopStep (⟨true, none, ⟨0, 0, 0, 0, 0, 0, 0, 0⟩, 0, 4000000, 0⟩ : LoopEnv)
        (⟨"", 0, (0, 0, 0)⟩ : LoopState)).1.led = (255, 0, 0) := by decide

/-- C2 amended: the heartbeat is gated only by the WiFi link and the
`millis() % 1000 < 100` window; it is sent even while the watchdog state is
DISCONNECTED (elapsed > 3,000,000 µs), and is suppressed only when WiFi is
down. -/
theorem C2_amended_heartbeat_ignores_watchdog_state :
    ∀ (env : LoopEnv) (st : LoopState),
      env.wifiConnected = true → env.packet = none →
      diffMicroSeconds env.microsNow st.timeLastPackageReceived > 3000000 →
      env.millis % 1000 < 100 →
      (loopStep env st).2.heartbeatSent = true := by
  intro env st hw hp hd hm
  simp [loopStep, hw, packetPhase, hp, heartbeatPhase, hm, sendTallyStatus]

/-- C2 amended, witness: elapsed = 9,000,000 µs, millis = 99. -/
theorem C2_amended_heartbeat_witness :
    diffMicroSeconds 9000000 0 > 3000000 ∧ (99 : Nat) % 1000 < 100 ∧
    (loopStep (⟨true, none, ⟨1, 2, 3, 4, 5, 6, 7, 8⟩, 0, 9000000, 99⟩ : LoopEnv)
        (⟨"x", 0, (0, 0, 0)⟩ : LoopState)).2.heartbeatSent = true :=
  ⟨by decide, by decide,
    C2_amended_heartbeat_ignores_watchdog_state
      (⟨true, none, ⟨1, 2, 3, 4, 5, 6, 7, 8⟩, 0, 9000000, 99⟩ : LoopEnv)
      (⟨"x", 0, (0, 0, 0)⟩ : LoopState) rfl rfl (by decide) (by decide)⟩

/-- C8 counterexample: two consecutive iterations with millis = 0 and
millis = 50 lie in the same one-second window (both `millis / 1000 = 0`),
both are CONNECTED, and both send a heartbeat: more than one send per
window. -/
theorem C8_counterexample_two_sends_in_one_window :
    heartbeatCount (runLoop [⟨true, none, ⟨0, 0, 0, 0, 0, 0, 0, 0⟩, 0, 0, 0⟩,
          ⟨true, none, ⟨0, 0, 0, 0, 0, 0, 0, 0⟩, 0, 1000, 50⟩]
        (⟨"", 0, (0, 0, 0)⟩ : LoopState)).2 = 2 ∧
    (0 : Nat) / 1000 = 50 / 1000 ∧
    connStatusMsg (diffMicroSeconds 0 0) = "CONNECTED" ∧
    connStatusMsg (diffMicroSeconds 1000 0) = "CONNECTED" := by decide

/-- C8 amended: a heartbeat datagram is sent on every single iteration in
which WiFi is up and `millis() % 1000 < 100`; within one one-second window
the device sends once per iteration falling in the first 100 ms, so several
sends per window occur whenever the loop iterates more than once there. -/
theorem C8_amended_heartbeat_per_iteration_in_window :
    ∀ (env : LoopEnv) (st : LoopState),
      (loopStep env st).2.heartbeatSent
        = (env.wifiConnected && decide (env.millis % 1000 < 100)) := by
  intro env st
  cases hw : env.wifiConnected
  · simp [loopStep, hw]
  · by_cases hm : env.millis % 1000 < 100
    · simp [loopStep, hw, heartbeatPhase, hm, sendTallyStatus]
    · simp [loopStep, hw, heartbeatPhase, hm]

/-- C7 counterexample: two consecutive CONNECTED iterations (no state
transition after the first) with a heartbeat log in between emit the
"CONNECTED" line twice: the dedup key `lastStatus` was overwritten by
"Sent status to hub", so the connectivity line is re-emitted without any
transition. -/
theorem C7_counterexample_reemission_without_transition :
    connLogCount ((runLoop [⟨true, none, ⟨0, 0, 0, 0, 0, 0, 0, 0⟩, 0, 0, 0⟩,
            ⟨true, none, ⟨0, 0, 0, 0, 0, 0, 0, 0⟩, 0, 1000, 500⟩]
          (⟨"", 0, (0, 0, 0)⟩ : LoopState)).2.map LoopOut.logs).flatten = 2 ∧
    connStatusMsg (diffMicroSeconds 0 0) = "CONNECTED" ∧
    connStatusMsg (diffMicroSeconds 1000 0) = "CONNECTED" := by decide

/-- C7 amended: a connectivity line is emitted exactly when the current
connectivity string differs from the last logged status line, not once per
state transition: within one iteration (WiFi up, no packet) the number of
emitted connectivity lines is 1 if `connStatusMsg elapsed` differs from
`lastStatus` and 0 otherwise, where `lastStatus` is the last line logged by
any `logMessageOnce` caller (including the heartbeat), so an intervening
heartbeat log forces a re-emission with no transition. -/
theorem C7_amended_one_line_per_lastStatus_change :
    ∀ (env : LoopEnv) (st : LoopState),
      env.wifiConnected = true → env.packet = none →
      connLogCount (loopStep env st).2.logs
        = if connStatusMsg (diffMicroSeconds env.microsNow st.timeLastPackageReceived)
              = st.lastStatus then 0 else 1 := by
  intro env st hw hp
  by_cases hm : env.millis % 1000 < 100 <;>
    simp [loopStep, hw, wifiCheckLogs, packetPhase, hp, watchdogPhase,
      heartbeatPhase, hm, connLogCount_append, connLogCount_sendTallyStatus,
      connLogCount_logMessageOnce_conn]

/-- C7 amended, witness: one CONNECTED iteration from a fresh lastStatus. -/
theorem C7_amended_one_line_witness :
    connLogCount (loopStep (⟨true, none, ⟨0, 0, 0, 0, 0, 0, 0, 0⟩, 0, 700, 500⟩ : LoopEnv)
        (⟨"", 0, (0, 0, 0)⟩ : LoopState)).2.logs
      = if connStatusMsg (diffMicroSeconds 700 0) = "" then 0 else 1 :=
  C7_amended_one_line_per_lastStatus_change
    (⟨true, none, ⟨0, 0, 0, 0, 0, 0, 0, 0⟩, 0, 700, 500⟩ : LoopEnv)
    (⟨"", 0, (0, 0, 0)⟩ : LoopState) rfl rfl

end Tally
